import Mathlib

/-!
Shallow embedding of the EV savings calculator.

The repository contains two copies of the financial engine:

* the Express server handler `POST /calculate` (file `src/unnamed/part_000`,
  lines 366-534, with its helpers at lines 78-89 and 268-315), modelled here
  in namespace `Server` over the rationals (all its arithmetic is rational:
  decimal constants, natural-number exponents);
* the web bundle function `calculateSavings`
  (`project/src/utils/calculationUtils.ts`, lines 150-276), modelled in
  namespace `Web` over the reals, because its cumulative-cost helper
  `calculateCumulativeCost` raises `1 + inflation` to the fractional power
  `month / 12`.

JavaScript numbers are modelled by exact arithmetic (ℚ resp. ℝ);
`Math.round(x * 100) / 100` and `Number(x.toFixed(2))` are both modelled by
`round2` (round half up to two decimals); the JS `||` defaulting on table
lookups is modelled by `Option.getD`.
-/

namespace EVCalc

/-- Two-decimal rounding, the model of `Math.round(x * 100) / 100` (and of
`Number(x.toFixed(2))`). -/
def round2 {R : Type} [LinearOrderedField R] [FloorRing R] (x : R) : R :=
  ((round (x * 100) : ℤ) : R) / 100

/-- Model of `presentValue(cashFlow, discountRate, yearIndex)`
(`part_000` lines 87-89, `calculationUtils.ts` lines 74-76): discount one
cash flow occurring at the end of year `yearIndex`. -/
def presentValue {R : Type} [LinearOrderedField R]
    (cashFlow discountRate : R) (yearIndex : ℕ) : R :=
  cashFlow / (1 + discountRate) ^ yearIndex

/-- Model of `presentValueOfGrowingAnnuity(cashFlow, growthRate, discountRate,
periods)` (`part_000` lines 79-85, `calculationUtils.ts` lines 66-72): the
closed-form present value of a growing annuity, with a degenerate branch when
the two rates are within `1e-9` of each other. -/
def presentValueOfGrowingAnnuity {R : Type} [LinearOrderedField R]
    (cashFlow growthRate discountRate : R) (periods : ℕ) : R :=
  if |growthRate - discountRate| < 1e-9 then
    cashFlow * periods / (1 + discountRate) ^ periods
  else
    cashFlow * (((1 + growthRate) ^ periods - (1 + discountRate) ^ periods) /
      (growthRate - discountRate)) / (1 + discountRate) ^ periods

/-- The input record accepted by both engines (`ebucksLevel`, `fuelType`,
`distance`, `hasInsurance`, `hasFinancing`, `hasSolar`, `hasNoBank`,
`loanTermYears`). -/
structure CalcInput where
  ebucksLevel : ℕ
  fuelType : String
  distance : ℚ
  hasInsurance : Bool
  hasFinancing : Bool
  hasSolar : Bool
  hasNoBank : Bool
  loanTermYears : ℕ

/-- Model of `DEFAULT_YEARS = 5` in both copies. -/
def DEFAULT_YEARS : ℕ := 5

/-- Model of `data.loanTermYears || DEFAULT_YEARS`: a zero (absent) loan term
defaults to 5 years. -/
def effectiveLoanTermYears (n : ℕ) : ℕ :=
  if n = 0 then DEFAULT_YEARS else n

/-- The fixed-reference comparison block (`standardUpfrontBenefits`). -/
structure UpfrontBenefits (R : Type) where
  presentValueEbucks : R
  carbonTaxSavings : R
  upfrontSavings : R
  deriving DecidableEq

/-- The CO₂ block of the result. -/
structure CO2Result (R : Type) where
  ice : R
  ev : R
  monthlySavings : R
  yearlySavings : R
  deriving DecidableEq

/-- The full result record returned by either engine. -/
structure CalcResult (R : Type) where
  presentValueEbucks : R
  carbonTaxSavings : R
  fuelSpendSavings : R
  upfrontSavings : R
  totalSavings : R
  standardUpfrontBenefits : UpfrontBenefits R
  co2Emissions : CO2Result R
  deriving DecidableEq

namespace Server

/-- Model of `FUEL_PRICES` table (`part_000` lines 15-19). -/
def FUEL_PRICES (fuelType : String) : Option ℚ :=
  if fuelType = "diesel" then some 19.32
  else if fuelType = "petrol95" then some 21.62
  else if fuelType = "petrol93" then some 21.51
  else none

/-- Model of `FUEL_CONSUMPTION` table (litres per 100 km, `part_000` lines 21-25). -/
def FUEL_CONSUMPTION (fuelType : String) : Option ℚ :=
  if fuelType = "diesel" then some 8
  else if fuelType = "petrol95" then some 9
  else if fuelType = "petrol93" then some 9
  else none

/-- Model of `BASE_EBUCKS` table (`part_000` lines 27-33). -/
def BASE_EBUCKS (level : ℕ) : Option ℚ :=
  if level = 1 then some (0.20 * 0.75)
  else if level = 2 then some (0.40 * 0.75)
  else if level = 3 then some (0.80 * 0.75)
  else if level = 4 then some (2.00 * 0.75)
  else if level = 5 then some (4.00 * 0.75)
  else none

/-- Model of `INSURANCE_RATES` table (`part_000` lines 35-41). -/
def INSURANCE_RATES (level : ℕ) : Option ℚ :=
  if level = 1 then some 0.10
  else if level = 2 then some 0.20
  else if level = 3 then some 0.40
  else if level = 4 then some 0.80
  else if level = 5 then some 2.00
  else none

/-- Model of `FINANCING_RATES` table (`part_000` lines 43-49). -/
def FINANCING_RATES (level : ℕ) : Option ℚ :=
  if level = 1 then some 0.10
  else if level = 2 then some 0.20
  else if level = 3 then some 0.40
  else if level = 4 then some 0.80
  else if level = 5 then some 2.00
  else none

def MONTHLY_FUEL_SPEND_CAP : ℚ := 3000.0

/-- Server copy uses 9% fuel inflation (`part_000` line 52). -/
def FUEL_INFLATION : ℚ := 0.09

def DISCOUNT_RATE : ℚ := 0.1095

/-- Model of `CARBON_TAX` table, rand per tonne by calendar year (`part_000`
lines 56-65). -/
def CARBON_TAX (year : ℕ) : Option ℚ :=
  if year = 2025 then some 236
  else if year = 2026 then some 308
  else if year = 2027 then some 347
  else if year = 2028 then some 390
  else if year = 2029 then some 440
  else if year = 2030 then some 495
  else if year = 2031 then some 495
  else if year = 2032 then some 495
  else none

/-- Model of `CARBON_TAX[year] || CARBON_TAX[maxKey]`: missing years forward-fill from
the table's final (2032) entry, 495. -/
def carbonTaxRate (year : ℕ) : ℚ :=
  (CARBON_TAX year).getD 495

def CO2_PER_LITRE : ℚ := 2.35

def EV_CONSUMPTION : ℚ := 0.189

def STANDARD_ESKOM_RATE : ℚ := 3.7

def PREMIUM_ESKOM_RATE : ℚ := 7.0

/-- Blended electricity rate: 90% standard, 10% premium (`part_000` line 72). -/
def ESKOM_RATE : ℚ := STANDARD_ESKOM_RATE * 0.9 + PREMIUM_ESKOM_RATE * 0.1

def CO2_GRID : ℚ := 0.9

def CO2_SOLAR : ℚ := 0.09

/-- Model of `FUEL_CONSUMPTION[fuelType] || 9.0`. -/
def consumptionRate (fuelType : String) : ℚ :=
  (FUEL_CONSUMPTION fuelType).getD 9.0

/-- Model of `FUEL_PRICES[fuelType] || 21.62`. -/
def fuelPriceOf (fuelType : String) : ℚ :=
  (FUEL_PRICES fuelType).getD 21.62

/-- Model of `monthlyLitres = consumptionRate * distance / 100.0`. -/
def monthlyLitresOf (fuelType : String) (distance : ℚ) : ℚ :=
  consumptionRate fuelType * distance / 100.0

/-- Model of `monthlyFuelSpend = monthlyLitres * fuelPrice`. -/
def monthlyFuelSpendOf (fuelType : String) (distance : ℚ) : ℚ :=
  monthlyLitresOf fuelType distance * fuelPriceOf fuelType

/-- ICE fuel-cost present value (`part_000` lines 407-413): the year-1 annual
cost, escalated by `FUEL_INFLATION` each year, each year discounted at
`DISCOUNT_RATE` and summed over the loan term. -/
def pvFuelCostOf (fuelType : String) (distance : ℚ) (years : ℕ) : ℚ :=
  (Finset.range years).sum fun i =>
    presentValue (monthlyFuelSpendOf fuelType distance * 12 *
      (1 + FUEL_INFLATION) ^ i) DISCOUNT_RATE (i + 1)

/-- Model of `annualEvCost = distanceMonthly * 12 * EV_CONSUMPTION * ESKOM_RATE`. -/
def annualEvCostOf (distance : ℚ) : ℚ :=
  distance * 12 * EV_CONSUMPTION * ESKOM_RATE

/-- EV charging-cost present value (`part_000` lines 416-429); with solar the
annual cost is 10% of normal, never zero. -/
def pvEvCostOf (hasSolar : Bool) (distance : ℚ) (years : ℕ) : ℚ :=
  if hasSolar then
    (Finset.range years).sum fun i =>
      presentValue (annualEvCostOf distance * 0.1) DISCOUNT_RATE (i + 1)
  else
    (Finset.range years).sum fun i =>
      presentValue (annualEvCostOf distance) DISCOUNT_RATE (i + 1)

/-- Model of `baseRate` (`part_000` lines 435-444): zero when `hasNoBank`. -/
def baseRateOf (hasNoBank : Bool) (level : ℕ) : ℚ :=
  if hasNoBank then 0 else (BASE_EBUCKS level).getD 0.0

/-- Model of `insuranceRate`: zero when `hasNoBank` or without the add-on. -/
def insuranceRateOf (hasNoBank hasInsurance : Bool) (level : ℕ) : ℚ :=
  if hasNoBank then 0
  else if hasInsurance then (INSURANCE_RATES level).getD 0.0 else 0.0

/-- Model of `financingRate`: zero when `hasNoBank` or without the add-on. -/
def financingRateOf (hasNoBank hasFinancing : Bool) (level : ℕ) : ℚ :=
  if hasNoBank then 0
  else if hasFinancing then (FINANCING_RATES level).getD 0.0 else 0.0

/-- Model of `totalRate = baseRate + insuranceRate + financingRate` (`part_000`
line 446). -/
def totalRateOf (data : CalcInput) : ℚ :=
  baseRateOf data.hasNoBank data.ebucksLevel +
    insuranceRateOf data.hasNoBank data.hasInsurance data.ebucksLevel +
    financingRateOf data.hasNoBank data.hasFinancing data.ebucksLevel

/-- Model of `qualifyingLitres = min(monthlyFuelSpend, MONTHLY_FUEL_SPEND_CAP) /
fuelPrice` (`part_000` lines 448-449). -/
def qualifyingLitresOf (fuelType : String) (distance : ℚ) : ℚ :=
  min (monthlyFuelSpendOf fuelType distance) MONTHLY_FUEL_SPEND_CAP /
    fuelPriceOf fuelType

/-- Model of `year1Ebucks = totalRate * qualifyingLitres * 12` (`part_000` line 450). -/
def year1EbucksOf (data : CalcInput) : ℚ :=
  totalRateOf data * qualifyingLitresOf data.fuelType data.distance * 12

/-- Model of `annualTonnesCo2 = annualLitres * CO2_PER_LITRE / 1000` (`part_000`
lines 459-460). -/
def annualTonnesCo2Of (fuelType : String) (distance : ℚ) : ℚ :=
  monthlyLitresOf fuelType distance * 12 * CO2_PER_LITRE / 1000.0

/-- Carbon-tax savings (`part_000` lines 455-468): five fixed years from 2025,
each discounted; suppressed entirely when `hasNoBank`. -/
def carbonTaxSavingsOf (hasNoBank : Bool) (fuelType : String)
    (distance : ℚ) : ℚ :=
  if hasNoBank then 0.0
  else
    (Finset.range 5).sum fun i =>
      presentValue (annualTonnesCo2Of fuelType distance *
        carbonTaxRate (2025 + i)) DISCOUNT_RATE (i + 1)

/-- Model of `calculateMonthlyCO2` (`part_000` lines 269-274). -/
def calculateMonthlyCO2 (distance : ℚ) (fuelType : String) : ℚ :=
  monthlyLitresOf fuelType distance * CO2_PER_LITRE

/-- EV monthly emissions (`part_000` lines 483-490): the solar factor is small
but non-zero. -/
def evMonthlyEmissionsOf (hasSolar : Bool) (distance : ℚ) : ℚ :=
  if hasSolar then distance * EV_CONSUMPTION * CO2_SOLAR
  else distance * EV_CONSUMPTION * CO2_GRID

/-- Model of `calculateStandardUpfrontBenefits` (`part_000` lines 277-315): the fixed
reference scenario; the handler calls it with the default `ebucksLevel = 4`,
and the tier-4 insurance and financing rates are added unconditionally. -/
def calculateStandardUpfrontBenefits (distance : ℚ) (fuelType : String)
    (ebucksLevel : ℕ) : UpfrontBenefits ℚ :=
  let totalRate := (BASE_EBUCKS ebucksLevel).getD 0.0 +
    (INSURANCE_RATES ebucksLevel).getD 0.0 +
    (FINANCING_RATES ebucksLevel).getD 0.0
  let year1Ebucks := totalRate * qualifyingLitresOf fuelType distance * 12
  let carbonTaxSavings := (Finset.range 5).sum fun i =>
    presentValue (annualTonnesCo2Of fuelType distance *
      carbonTaxRate (2025 + i)) DISCOUNT_RATE (i + 1)
  let pvEbucks :=
    presentValueOfGrowingAnnuity year1Ebucks FUEL_INFLATION DISCOUNT_RATE 5
  { presentValueEbucks := round2 pvEbucks
    carbonTaxSavings := round2 carbonTaxSavings
    upfrontSavings := round2 (pvEbucks + carbonTaxSavings) }

/-- The `POST /calculate` handler body (`part_000` lines 391-510), as a pure
function from the parsed input to the JSON result. -/
def calculate (data : CalcInput) : CalcResult ℚ :=
  let years := effectiveLoanTermYears data.loanTermYears
  let fuelSpendSavings :=
    pvFuelCostOf data.fuelType data.distance years -
      pvEvCostOf data.hasSolar data.distance years
  let pvEbucks := presentValueOfGrowingAnnuity (year1EbucksOf data)
    FUEL_INFLATION DISCOUNT_RATE 5
  let carbonTaxSavings :=
    carbonTaxSavingsOf data.hasNoBank data.fuelType data.distance
  let upfrontSavings := pvEbucks + carbonTaxSavings
  let iceMonthlyEmissions := calculateMonthlyCO2 data.distance data.fuelType
  let evMonthlyEmissions := evMonthlyEmissionsOf data.hasSolar data.distance
  let monthlyCO2Savings := iceMonthlyEmissions - evMonthlyEmissions
  { presentValueEbucks := round2 pvEbucks
    carbonTaxSavings := round2 carbonTaxSavings
    fuelSpendSavings := round2 fuelSpendSavings
    upfrontSavings := round2 upfrontSavings
    totalSavings := round2 (upfrontSavings + fuelSpendSavings)
    standardUpfrontBenefits :=
      calculateStandardUpfrontBenefits data.distance data.fuelType 4
    co2Emissions :=
      { ice := round2 iceMonthlyEmissions
        ev := round2 evMonthlyEmissions
        monthlySavings := round2 monthlyCO2Savings
        yearlySavings := round2 (monthlyCO2Savings * 12) } }

end Server

namespace Web

/-- Model of `FUEL_PRICES` table (`calculationUtils.ts` lines 2-6). -/
def FUEL_PRICES (fuelType : String) : Option ℝ :=
  if fuelType = "diesel" then some 19.32
  else if fuelType = "petrol95" then some 21.62
  else if fuelType = "petrol93" then some 21.51
  else none

/-- Model of `FUEL_CONSUMPTION` table (`calculationUtils.ts` lines 8-12). -/
def FUEL_CONSUMPTION (fuelType : String) : Option ℝ :=
  if fuelType = "diesel" then some 8
  else if fuelType = "petrol95" then some 9
  else if fuelType = "petrol93" then some 9
  else none

/-- Model of `BASE_EBUCKS` table (`calculationUtils.ts` lines 14-20). -/
def BASE_EBUCKS (level : ℕ) : Option ℝ :=
  if level = 1 then some (0.20 * 0.75)
  else if level = 2 then some (0.40 * 0.75)
  else if level = 3 then some (0.80 * 0.75)
  else if level = 4 then some (2.0 * 0.75)
  else if level = 5 then some (4.00 * 0.75)
  else none

/-- Model of `INSURANCE_RATES` table (`calculationUtils.ts` lines 22-28). -/
def INSURANCE_RATES (level : ℕ) : Option ℝ :=
  if level = 1 then some 0.10
  else if level = 2 then some 0.20
  else if level = 3 then some 0.40
  else if level = 4 then some 0.80
  else if level = 5 then some 2.00
  else none

/-- Model of `FINANCING_RATES` table (`calculationUtils.ts` lines 30-36). -/
def FINANCING_RATES (level : ℕ) : Option ℝ :=
  if level = 1 then some 0.10
  else if level = 2 then some 0.20
  else if level = 3 then some 0.40
  else if level = 4 then some 0.80
  else if level = 5 then some 2.00
  else none

def MONTHLY_FUEL_SPEND_CAP : ℝ := 3000.0

/-- Web copy uses 7.5% fuel inflation (`calculationUtils.ts` line 39). -/
def FUEL_INFLATION : ℝ := 0.075

/-- 10.62% annual electricity inflation (`calculationUtils.ts` line 40). -/
def ELECTRICITY_INFLATION : ℝ := 0.1062

def DISCOUNT_RATE : ℝ := 0.1095

/-- Model of `CARBON_TAX` table (`calculationUtils.ts` lines 44-53). -/
def CARBON_TAX (year : ℕ) : Option ℝ :=
  if year = 2025 then some 236
  else if year = 2026 then some 308
  else if year = 2027 then some 347
  else if year = 2028 then some 390
  else if year = 2029 then some 440
  else if year = 2030 then some 495
  else if year = 2031 then some 495
  else if year = 2032 then some 495
  else none

/-- Model of `CARBON_TAX[year] || CARBON_TAX[maxKey]`: forward-fill from the final
(2032) entry. -/
noncomputable def carbonTaxRate (year : ℕ) : ℝ :=
  (CARBON_TAX year).getD 495

def CO2_PER_LITRE : ℝ := 2.35

def EV_CONSUMPTION : ℝ := 0.189

def STANDARD_ESKOM_RATE : ℝ := 3.7

def PREMIUM_ESKOM_RATE : ℝ := 7.0

/-- Blended rate, 90% standard plus 10% premium (`calculationUtils.ts`
line 59). -/
noncomputable def ESKOM_RATE : ℝ := STANDARD_ESKOM_RATE * 0.9 + PREMIUM_ESKOM_RATE * 0.1

def CO2_GRID : ℝ := 0.9

def CO2_SOLAR : ℝ := 0.09

/-- Model of `FUEL_CONSUMPTION[fuelType] || 9.0`. -/
noncomputable def consumptionRate (fuelType : String) : ℝ :=
  (FUEL_CONSUMPTION fuelType).getD 9.0

/-- Model of `FUEL_PRICES[fuelType] || 21.62`. -/
noncomputable def fuelPriceOf (fuelType : String) : ℝ :=
  (FUEL_PRICES fuelType).getD 21.62

/-- Model of `monthlyLitres = consumptionRate * distance / 100.0`. -/
noncomputable def monthlyLitresOf (fuelType : String) (distance : ℝ) : ℝ :=
  consumptionRate fuelType * distance / 100.0

/-- Model of `monthlyFuelSpend = monthlyLitres * fuelPrice`. -/
noncomputable def monthlyFuelSpendOf (fuelType : String) (distance : ℝ) : ℝ :=
  monthlyLitresOf fuelType distance * fuelPriceOf fuelType

/-- Model of `calculateCumulativeCost` (`calculationUtils.ts` lines 137-148): nominal
monthly costs with inflation applied at the fractional exponent `month / 12`,
summed with no discounting. -/
noncomputable def calculateCumulativeCost (monthlyBaseCost annualInflation : ℝ)
    (months : ℕ) : ℝ :=
  (Finset.range months).sum fun month =>
    monthlyBaseCost * (1 + annualInflation) ^ ((month : ℝ) / 12)

/-- Model of `baseMonthlyChargingCost` times the solar factor when applicable
(`calculationUtils.ts` lines 167-173). -/
noncomputable def monthlyChargingCostOf (hasSolar : Bool) (distance : ℝ) : ℝ :=
  if hasSolar then distance * EV_CONSUMPTION * ESKOM_RATE * 0.1
  else distance * EV_CONSUMPTION * ESKOM_RATE

/-- Model of `rawFuelSpendSavings` (`calculationUtils.ts` lines 175-179): the rounded
difference of the two nominal cumulative cost streams over the loan term. -/
noncomputable def rawFuelSpendSavingsOf (fuelType : String) (hasSolar : Bool)
    (distance : ℝ) (years : ℕ) : ℝ :=
  round2 (calculateCumulativeCost (monthlyFuelSpendOf fuelType distance)
      FUEL_INFLATION (years * 12) -
    calculateCumulativeCost (monthlyChargingCostOf hasSolar distance)
      ELECTRICITY_INFLATION (years * 12))

/-- Model of `baseRate` (`calculationUtils.ts` lines 201-210). -/
noncomputable def baseRateOf (hasNoBank : Bool) (level : ℕ) : ℝ :=
  if hasNoBank then 0 else (BASE_EBUCKS level).getD 0.0

/-- Model of `insuranceRate` (`calculationUtils.ts` line 208). -/
noncomputable def insuranceRateOf (hasNoBank hasInsurance : Bool) (level : ℕ) : ℝ :=
  if hasNoBank then 0
  else if hasInsurance then (INSURANCE_RATES level).getD 0.0 else 0.0

/-- Model of `financingRate` (`calculationUtils.ts` line 209). -/
noncomputable def financingRateOf (hasNoBank hasFinancing : Bool) (level : ℕ) : ℝ :=
  if hasNoBank then 0
  else if hasFinancing then (FINANCING_RATES level).getD 0.0 else 0.0

/-- Model of `totalRate` (`calculationUtils.ts` line 212). -/
noncomputable def totalRateOf (data : CalcInput) : ℝ :=
  baseRateOf data.hasNoBank data.ebucksLevel +
    insuranceRateOf data.hasNoBank data.hasInsurance data.ebucksLevel +
    financingRateOf data.hasNoBank data.hasFinancing data.ebucksLevel

/-- Model of `qualifyingLitres` (`calculationUtils.ts` lines 214-215). -/
noncomputable def qualifyingLitresOf (fuelType : String) (distance : ℝ) : ℝ :=
  min (monthlyFuelSpendOf fuelType distance) MONTHLY_FUEL_SPEND_CAP /
    fuelPriceOf fuelType

/-- Model of `year1Ebucks` (`calculationUtils.ts` line 216). -/
noncomputable def year1EbucksOf (data : CalcInput) : ℝ :=
  totalRateOf data * qualifyingLitresOf data.fuelType (data.distance : ℝ) * 12

/-- Model of `annualTonnesCo2` (`calculationUtils.ts` lines 224-225). -/
noncomputable def annualTonnesCo2Of (fuelType : String) (distance : ℝ) : ℝ :=
  monthlyLitresOf fuelType distance * 12 * CO2_PER_LITRE / 1000.0

/-- Carbon-tax savings (`calculationUtils.ts` lines 221-233). -/
noncomputable def carbonTaxSavingsOf (hasNoBank : Bool) (fuelType : String)
    (distance : ℝ) : ℝ :=
  if hasNoBank then 0.0
  else
    (Finset.range 5).sum fun i =>
      presentValue (annualTonnesCo2Of fuelType distance *
        carbonTaxRate (2025 + i)) DISCOUNT_RATE (i + 1)

/-- Model of `calculateMonthlyCO2` (`calculationUtils.ts` lines 78-83). -/
noncomputable def calculateMonthlyCO2 (distance : ℝ) (fuelType : String) : ℝ :=
  monthlyLitresOf fuelType distance * CO2_PER_LITRE

/-- EV monthly emissions (`calculationUtils.ts` lines 246-252). -/
noncomputable def evMonthlyEmissionsOf (hasSolar : Bool) (distance : ℝ) : ℝ :=
  if hasSolar then distance * EV_CONSUMPTION * CO2_SOLAR
  else distance * EV_CONSUMPTION * CO2_GRID

/-- Model of `calculateStandardUpfrontBenefits` (`calculationUtils.ts` lines 85-123),
called by `calculateSavings` with the default `ebucksLevel = 4`. -/
noncomputable def calculateStandardUpfrontBenefits (distance : ℝ)
    (fuelType : String) (ebucksLevel : ℕ) : UpfrontBenefits ℝ :=
  let totalRate := (BASE_EBUCKS ebucksLevel).getD 0.0 +
    (INSURANCE_RATES ebucksLevel).getD 0.0 +
    (FINANCING_RATES ebucksLevel).getD 0.0
  let year1Ebucks := totalRate * qualifyingLitresOf fuelType distance * 12
  let carbonTaxSavings := (Finset.range 5).sum fun i =>
    presentValue (annualTonnesCo2Of fuelType distance *
      carbonTaxRate (2025 + i)) DISCOUNT_RATE (i + 1)
  let pvEbucks :=
    presentValueOfGrowingAnnuity year1Ebucks FUEL_INFLATION DISCOUNT_RATE 5
  { presentValueEbucks := round2 pvEbucks
    carbonTaxSavings := round2 carbonTaxSavings
    upfrontSavings := round2 (pvEbucks + carbonTaxSavings) }

/-- Model of `calculateSavings` (`calculationUtils.ts` lines 150-276). Note that the
returned `fuelSpendSavings` field is `rawFuelSpendSavings` (line 261) and the
returned `totalSavings` is `upfrontSavings + rawFuelSpendSavings` (line 263);
the intermediate variables `pvEvCost` and `fuelSpendSavings` computed at
lines 181-198 feed no returned field, so they are not modelled. -/
noncomputable def calculateSavings (data : CalcInput) : CalcResult ℝ :=
  let years := effectiveLoanTermYears data.loanTermYears
  let rawFuelSpendSavings :=
    rawFuelSpendSavingsOf data.fuelType data.hasSolar (data.distance : ℝ) years
  let pvEbucks := presentValueOfGrowingAnnuity (year1EbucksOf data)
    FUEL_INFLATION DISCOUNT_RATE 5
  let carbonTaxSavings :=
    carbonTaxSavingsOf data.hasNoBank data.fuelType (data.distance : ℝ)
  let upfrontSavings := pvEbucks + carbonTaxSavings
  let iceMonthlyEmissions :=
    calculateMonthlyCO2 (data.distance : ℝ) data.fuelType
  let evMonthlyEmissions :=
    evMonthlyEmissionsOf data.hasSolar (data.distance : ℝ)
  let monthlyCO2Savings := iceMonthlyEmissions - evMonthlyEmissions
  { presentValueEbucks := round2 pvEbucks
    carbonTaxSavings := round2 carbonTaxSavings
    fuelSpendSavings := rawFuelSpendSavings
    upfrontSavings := round2 upfrontSavings
    totalSavings := round2 (upfrontSavings + rawFuelSpendSavings)
    standardUpfrontBenefits :=
      calculateStandardUpfrontBenefits (data.distance : ℝ) data.fuelType 4
    co2Emissions :=
      { ice := round2 iceMonthlyEmissions
        ev := round2 evMonthlyEmissions
        monthlySavings := round2 monthlyCO2Savings
        yearlySavings := round2 (monthlyCO2Savings * 12) } }

end Web

/-- Input used to exhibit the divergence of the web copy's returned
`fuelSpendSavings` from the discounted present-value difference: 1500 km per
month on petrol 95, solar charging, a 1-year loan term. -/
def webCexInput : CalcInput :=
  { ebucksLevel := 3, fuelType := "petrol95", distance := 1500,
    hasInsurance := true, hasFinancing := true, hasSolar := true,
    hasNoBank := false, loanTermYears := 1 }

/-- Input with a small positive monthly distance (0.01 km), for which the
2-decimal-rounded solar EV emission output collapses to zero. -/
def smallDistanceInput : CalcInput :=
  { ebucksLevel := 3, fuelType := "petrol95", distance := 1 / 100,
    hasInsurance := true, hasFinancing := true, hasSolar := true,
    hasNoBank := false, loanTermYears := 5 }

/-- The documented example scenario (spec section 8): tier 3, petrol 95,
1500 km per month, both add-ons, no solar, bank-affiliated, 5-year term. -/
def typicalInput : CalcInput :=
  { ebucksLevel := 3, fuelType := "petrol95", distance := 1500,
    hasInsurance := true, hasFinancing := true, hasSolar := false,
    hasNoBank := false, loanTermYears := 5 }

section RoundingLemmas

variable {R : Type} [LinearOrderedField R] [FloorRing R]

theorem abs_round2_sub_le (x : R) : |round2 x - x| ≤ 1 / 200 := by
  have h : |((round (x * 100) : ℤ) : R) - x * 100| ≤ 1 / 2 := by
    rw [abs_sub_comm]; exact abs_sub_round (x * 100)
  have e : round2 x - x = (((round (x * 100) : ℤ) : R) - x * 100) / 100 := by
    unfold round2; ring
  rw [e, abs_div, abs_of_pos (by norm_num : (0 : R) < 100)]
  rw [div_le_div_iff₀ (by norm_num) (by norm_num)]
  nlinarith [h]

theorem round2_le (x : R) : round2 x ≤ x + 1 / 200 := by
  have h := abs_round2_sub_le x
  rw [abs_le] at h
  linarith [h.2]

theorem le_round2 (x : R) : x - 1 / 200 ≤ round2 x := by
  have h := abs_round2_sub_le x
  rw [abs_le] at h
  linarith [h.1]

theorem round2_round2 (x : R) : round2 (round2 x) = round2 x := by
  unfold round2
  rw [div_mul_cancel₀ _ (by norm_num : (100 : R) ≠ 0), round_intCast]

theorem round2_zero : round2 (0 : R) = 0 := by
  simp [round2]

/-- Two-decimal rounding of a sum differs from the sum of the two roundings by
at most one cent. -/
theorem abs_round2_add_sub_le (a b : R) :
    |round2 (a + b) - (round2 a + round2 b)| ≤ 1 / 100 := by
  set S : ℤ := round ((a + b) * 100) with hS
  set A : ℤ := round (a * 100) with hA
  set B : ℤ := round (b * 100) with hB
  have hs : |(S : R) - (a + b) * 100| ≤ 1 / 2 := by
    rw [abs_sub_comm]; exact abs_sub_round ((a + b) * 100)
  have ha : |(A : R) - a * 100| ≤ 1 / 2 := by
    rw [abs_sub_comm]; exact abs_sub_round (a * 100)
  have hb : |(B : R) - b * 100| ≤ 1 / 2 := by
    rw [abs_sub_comm]; exact abs_sub_round (b * 100)
  have key : |(S - A - B : ℤ)| ≤ 1 := by
    have hcast : |((S - A - B : ℤ) : R)| ≤ 3 / 2 := by
      push_cast
      have e : (S : R) - A - B =
          ((S : R) - (a + b) * 100) - ((A : R) - a * 100) - ((B : R) - b * 100) := by
        ring
      rw [e]
      calc |((S : R) - (a + b) * 100) - ((A : R) - a * 100) - ((B : R) - b * 100)|
          ≤ |((S : R) - (a + b) * 100) - ((A : R) - a * 100)| + |(B : R) - b * 100| :=
            abs_sub _ _
        _ ≤ |(S : R) - (a + b) * 100| + |(A : R) - a * 100| + |(B : R) - b * 100| := by
            have := abs_sub ((S : R) - (a + b) * 100) ((A : R) - a * 100)
            linarith
        _ ≤ 3 / 2 := by linarith
    have h2 : |((S - A - B : ℤ) : R)| < 2 := lt_of_le_of_lt hcast (by norm_num)
    rw [← Int.cast_abs] at h2
    have h3 : |S - A - B| < (2 : ℤ) := by exact_mod_cast h2
    omega
  have e2 : round2 (a + b) - (round2 a + round2 b) = ((S - A - B : ℤ) : R) / 100 := by
    unfold round2
    rw [← hS, ← hA, ← hB]
    push_cast
    ring
  rw [e2, abs_div, abs_of_pos (by norm_num : (0 : R) < 100), ← Int.cast_abs]
  have h1 : ((|S - A - B| : ℤ) : R) ≤ 1 := by exact_mod_cast key
  rw [div_le_div_iff₀ (by norm_num) (by norm_num)]
  nlinarith [h1]

end RoundingLemmas

section AnnuityLemmas

variable {R : Type} [LinearOrderedField R]

/-- The growing annuity of a zero cash flow is zero, in either branch. -/
theorem presentValueOfGrowingAnnuity_zero (g d : R) (n : ℕ) :
    presentValueOfGrowingAnnuity 0 g d n = 0 := by
  unfold presentValueOfGrowingAnnuity
  split <;> simp

/-- The geometric identity behind the growing-annuity closed form. -/
theorem geom_pv_sum (g d : R) (hgd : g ≠ d) (hd : 1 + d ≠ 0) (n : ℕ) :
    (Finset.range n).sum (fun i => (1 + g) ^ i / (1 + d) ^ (i + 1)) =
      ((1 + g) ^ n - (1 + d) ^ n) / ((g - d) * (1 + d) ^ n) := by
  induction n with
  | zero => simp
  | succ n ih =>
    rw [Finset.sum_range_succ, ih]
    have hgd' : g - d ≠ 0 := sub_ne_zero.mpr hgd
    have hdn : (1 + d) ^ n ≠ 0 := pow_ne_zero n hd
    field_simp
    ring

end AnnuityLemmas

/-- Claim C7: `presentValueGrowingAnnuity(cashFlowYear1, growthRate,
discountRate, numPeriods)` returns `cashFlowYear1 * numPeriods /
(1+discountRate)^numPeriods` when `|growthRate - discountRate| < 1e-9`, and
otherwise `cashFlowYear1 * ((1+growthRate)^numPeriods -
(1+discountRate)^numPeriods) / (growthRate - discountRate) /
(1+discountRate)^numPeriods`, for every cash flow, pair of rates and number of
periods. -/
theorem c7_growing_annuity_closed_form {R : Type} [LinearOrderedField R]
    (cashFlowYear1 growthRate discountRate : R) (numPeriods : ℕ) :
    presentValueOfGrowingAnnuity cashFlowYear1 growthRate discountRate numPeriods =
      if |growthRate - discountRate| < 1e-9 then
        cashFlowYear1 * numPeriods / (1 + discountRate) ^ numPeriods
      else
        cashFlowYear1 *
          ((1 + growthRate) ^ numPeriods - (1 + discountRate) ^ numPeriods) /
          (growthRate - discountRate) / (1 + discountRate) ^ numPeriods := by
  unfold presentValueOfGrowingAnnuity
  split
  · rfl
  · ring

/-- Claim C2: in both engine copies, the returned rounded fields satisfy
`upfrontSavings = presentValueEbucks + carbonTaxSavings` and
`totalSavings = upfrontSavings + fuelSpendSavings` within a tolerance of
0.01. -/
theorem c2_output_additivity (inp : CalcInput) :
    |(Server.calculate inp).upfrontSavings -
        ((Server.calculate inp).presentValueEbucks +
          (Server.calculate inp).carbonTaxSavings)| ≤ 1 / 100 ∧
    |(Server.calculate inp).totalSavings -
        ((Server.calculate inp).upfrontSavings +
          (Server.calculate inp).fuelSpendSavings)| ≤ 1 / 100 ∧
    |(Web.calculateSavings inp).upfrontSavings -
        ((Web.calculateSavings inp).presentValueEbucks +
          (Web.calculateSavings inp).carbonTaxSavings)| ≤ 1 / 100 ∧
    |(Web.calculateSavings inp).totalSavings -
        ((Web.calculateSavings inp).upfrontSavings +
          (Web.calculateSavings inp).fuelSpendSavings)| ≤ 1 / 100 := by
  refine ⟨abs_round2_add_sub_le _ _, abs_round2_add_sub_le _ _,
    abs_round2_add_sub_le _ _, ?_⟩
  show |round2 (presentValueOfGrowingAnnuity (Web.year1EbucksOf inp)
        Web.FUEL_INFLATION Web.DISCOUNT_RATE 5 +
      Web.carbonTaxSavingsOf inp.hasNoBank inp.fuelType (inp.distance : ℝ) +
      Web.rawFuelSpendSavingsOf inp.fuelType inp.hasSolar (inp.distance : ℝ)
        (effectiveLoanTermYears inp.loanTermYears)) -
    (round2 (presentValueOfGrowingAnnuity (Web.year1EbucksOf inp)
        Web.FUEL_INFLATION Web.DISCOUNT_RATE 5 +
      Web.carbonTaxSavingsOf inp.hasNoBank inp.fuelType (inp.distance : ℝ)) +
      Web.rawFuelSpendSavingsOf inp.fuelType inp.hasSolar (inp.distance : ℝ)
        (effectiveLoanTermYears inp.loanTermYears))| ≤ 1 / 100
  have h := abs_round2_add_sub_le
    (presentValueOfGrowingAnnuity (Web.year1EbucksOf inp)
        Web.FUEL_INFLATION Web.DISCOUNT_RATE 5 +
      Web.carbonTaxSavingsOf inp.hasNoBank inp.fuelType (inp.distance : ℝ))
    (Web.rawFuelSpendSavingsOf inp.fuelType inp.hasSolar (inp.distance : ℝ)
      (effectiveLoanTermYears inp.loanTermYears))
  rwa [show round2 (Web.rawFuelSpendSavingsOf inp.fuelType inp.hasSolar
      (inp.distance : ℝ) (effectiveLoanTermYears inp.loanTermYears)) =
      Web.rawFuelSpendSavingsOf inp.fuelType inp.hasSolar (inp.distance : ℝ)
        (effectiveLoanTermYears inp.loanTermYears) from round2_round2 _] at h

/-- Claim C3: when `hasNoBankAffiliation` is true, both engine copies return
zero `presentValueEbucks` and zero `carbonTaxSavings`, whatever the other
inputs are. -/
theorem c3_no_bank_zeroes (inp : CalcInput) (h : inp.hasNoBank = true) :
    (Server.calculate inp).presentValueEbucks = 0 ∧
    (Server.calculate inp).carbonTaxSavings = 0 ∧
    (Web.calculateSavings inp).presentValueEbucks = 0 ∧
    (Web.calculateSavings inp).carbonTaxSavings = 0 := by
  have hy : Server.year1EbucksOf inp = 0 := by
    unfold Server.year1EbucksOf Server.totalRateOf Server.baseRateOf
      Server.insuranceRateOf Server.financingRateOf
    rw [h]
    simp
  have hyw : Web.year1EbucksOf inp = 0 := by
    unfold Web.year1EbucksOf Web.totalRateOf Web.baseRateOf
      Web.insuranceRateOf Web.financingRateOf
    rw [h]
    simp
  refine ⟨?_, ?_, ?_, ?_⟩
  · show round2 (presentValueOfGrowingAnnuity (Server.year1EbucksOf inp)
      Server.FUEL_INFLATION Server.DISCOUNT_RATE 5) = 0
    rw [hy, presentValueOfGrowingAnnuity_zero, round2_zero]
  · show round2 (Server.carbonTaxSavingsOf inp.hasNoBank inp.fuelType
      inp.distance) = 0
    unfold Server.carbonTaxSavingsOf
    rw [h]
    norm_num [round2]
  · show round2 (presentValueOfGrowingAnnuity (Web.year1EbucksOf inp)
      Web.FUEL_INFLATION Web.DISCOUNT_RATE 5) = 0
    rw [hyw, presentValueOfGrowingAnnuity_zero, round2_zero]
  · show round2 (Web.carbonTaxSavingsOf inp.hasNoBank inp.fuelType
      (inp.distance : ℝ)) = 0
    unfold Web.carbonTaxSavingsOf
    rw [h]
    norm_num [round2]

/-- Witness for C3 at a concrete no-bank input. -/
theorem c3_no_bank_zeroes_witness :
    (CalcInput.mk 3 "petrol95" 1500 true true false true 5).hasNoBank = true ∧
    (Server.calculate
      (CalcInput.mk 3 "petrol95" 1500 true true false true 5)).presentValueEbucks = 0 ∧
    (Server.calculate
      (CalcInput.mk 3 "petrol95" 1500 true true false true 5)).carbonTaxSavings = 0 ∧
    (Web.calculateSavings
      (CalcInput.mk 3 "petrol95" 1500 true true false true 5)).presentValueEbucks = 0 ∧
    (Web.calculateSavings
      (CalcInput.mk 3 "petrol95" 1500 true true false true 5)).carbonTaxSavings = 0 :=
  ⟨rfl, c3_no_bank_zeroes (CalcInput.mk 3 "petrol95" 1500 true true false true 5) rfl⟩

/-- Claim C4: in both copies the reward present value is a growing annuity
over exactly 5 periods and the carbon-tax savings sum over the 5 fixed years
2025-2029, so changing only `loanTermYears` changes neither returned field. -/
theorem c4_upfront_term_invariance (inp : CalcInput) (n : ℕ) :
    (Server.calculate {inp with loanTermYears := n}).presentValueEbucks =
      (Server.calculate inp).presentValueEbucks ∧
    (Server.calculate {inp with loanTermYears := n}).carbonTaxSavings =
      (Server.calculate inp).carbonTaxSavings ∧
    (Web.calculateSavings {inp with loanTermYears := n}).presentValueEbucks =
      (Web.calculateSavings inp).presentValueEbucks ∧
    (Web.calculateSavings {inp with loanTermYears := n}).carbonTaxSavings =
      (Web.calculateSavings inp).carbonTaxSavings ∧
    (Server.calculate inp).presentValueEbucks =
      round2 (presentValueOfGrowingAnnuity (Server.year1EbucksOf inp)
        Server.FUEL_INFLATION Server.DISCOUNT_RATE 5) ∧
    (Server.calculate inp).carbonTaxSavings =
      round2 (Server.carbonTaxSavingsOf inp.hasNoBank inp.fuelType
        inp.distance) :=
  ⟨rfl, rfl, rfl, rfl, rfl, rfl⟩

/-- Claim C5: `standardUpfrontBenefits` ignores `rewardLevel`, the add-on
flags, the no-bank flag and the loan term: both copies always compute it from
distance and fuel type alone, at the fixed tier-4 reference call. -/
theorem c5_standard_benefits_invariance (inp : CalcInput) (lvl : ℕ)
    (ins fin nb : Bool) (n : ℕ) :
    (Server.calculate {inp with
        ebucksLevel := lvl, hasInsurance := ins, hasFinancing := fin,
        hasNoBank := nb, loanTermYears := n}).standardUpfrontBenefits =
      (Server.calculate inp).standardUpfrontBenefits ∧
    (Web.calculateSavings {inp with
        ebucksLevel := lvl, hasInsurance := ins, hasFinancing := fin,
        hasNoBank := nb, loanTermYears := n}).standardUpfrontBenefits =
      (Web.calculateSavings inp).standardUpfrontBenefits ∧
    (Server.calculate inp).standardUpfrontBenefits =
      Server.calculateStandardUpfrontBenefits inp.distance inp.fuelType 4 ∧
    (Web.calculateSavings inp).standardUpfrontBenefits =
      Web.calculateStandardUpfrontBenefits (inp.distance : ℝ) inp.fuelType 4 :=
  ⟨rfl, rfl, rfl, rfl⟩

/-- Claim C10: toggling only `hasNoBankAffiliation` leaves `fuelSpendSavings`,
`standardUpfrontBenefits` and every CO₂ field unchanged in both copies. -/
theorem c10_no_bank_frame (inp : CalcInput) (b : Bool) :
    (Server.calculate {inp with hasNoBank := b}).fuelSpendSavings =
      (Server.calculate inp).fuelSpendSavings ∧
    (Server.calculate {inp with hasNoBank := b}).standardUpfrontBenefits =
      (Server.calculate inp).standardUpfrontBenefits ∧
    (Server.calculate {inp with hasNoBank := b}).co2Emissions =
      (Server.calculate inp).co2Emissions ∧
    (Web.calculateSavings {inp with hasNoBank := b}).fuelSpendSavings =
      (Web.calculateSavings inp).fuelSpendSavings ∧
    (Web.calculateSavings {inp with hasNoBank := b}).standardUpfrontBenefits =
      (Web.calculateSavings inp).standardUpfrontBenefits ∧
    (Web.calculateSavings {inp with hasNoBank := b}).co2Emissions =
      (Web.calculateSavings inp).co2Emissions :=
  ⟨rfl, rfl, rfl, rfl, rfl, rfl⟩

/-- Claim C6 (counterexample): for rates that differ by less than `1e-9` but
are not equal, the function takes the degenerate branch and no longer equals
the explicit escalate-then-discount loop sum; witnessed at cash flow 1, growth
rate 0, discount rate `10^-10`, 2 periods. -/
theorem c6_epsilon_branch_counterexample :
    presentValueOfGrowingAnnuity (1 : ℚ) 0 (1 / 10 ^ 10) 2 ≠
      (Finset.range 2).sum
        (fun i => (1 : ℚ) * (1 + 0) ^ i / (1 + 1 / 10 ^ 10) ^ (i + 1)) := by
  have hc : |(0 : ℚ) - 1 / 10 ^ 10| < 1e-9 := by
    rw [zero_sub, abs_neg, abs_of_nonneg (by norm_num : (0 : ℚ) ≤ 1 / 10 ^ 10)]
    norm_num
  unfold presentValueOfGrowingAnnuity
  rw [if_pos hc]
  rw [Finset.sum_range_succ, Finset.sum_range_one]
  norm_num

/-- Claim C6 (amended): whenever `|growthRate - discountRate| ≥ 1e-9` (so the
non-degenerate branch is taken), the closed form equals the explicit loop sum
escalating each year's cash flow and discounting it; within the `1e-9` band
with unequal rates the two sides differ. -/
theorem c6_closed_form_eq_loop {R : Type} [LinearOrderedField R]
    (cf g d : R) (n : ℕ) (hn : 0 < n) (h : (1e-9 : R) ≤ |g - d|) :
    presentValueOfGrowingAnnuity cf g d n =
      (Finset.range n).sum (fun i => cf * (1 + g) ^ i / (1 + d) ^ (i + 1)) := by
  have hlt : ¬ |g - d| < (1e-9 : R) := not_lt.mpr h
  have hgd : g ≠ d := by
    intro he
    rw [he, sub_self, abs_zero] at h
    norm_num at h
  unfold presentValueOfGrowingAnnuity
  rw [if_neg hlt]
  by_cases hd : (1 + d) = 0
  · rw [hd, zero_pow hn.ne', div_zero]
    symm
    apply Finset.sum_eq_zero
    intro i _
    rw [zero_pow (Nat.succ_ne_zero i), div_zero]
  · have key := geom_pv_sum g d hgd hd n
    simp only [mul_div_assoc]
    rw [← Finset.mul_sum, key, div_div]

/-- Witness for the amended C6 at cash flow 1, growth 1, discount 0, two
periods. -/
theorem c6_closed_form_eq_loop_witness :
    (0 < 2) ∧ ((1e-9 : ℚ) ≤ |1 - 0|) ∧
    presentValueOfGrowingAnnuity (1 : ℚ) 1 0 2 =
      (Finset.range 2).sum (fun i => (1 : ℚ) * (1 + 1) ^ i / (1 + 0) ^ (i + 1)) :=
  ⟨by norm_num, by norm_num,
    c6_closed_form_eq_loop 1 1 0 2 (by norm_num) (by norm_num)⟩

/-- Claim C1 (amended): the server handler's returned `fuelSpendSavings` is
the 2-decimal rounding of the present value of the ICE fuel cost stream
(year-1 annual cost escalated by the fuel-inflation rate each year, each
year discounted and summed over `loanTermYears`) minus the present value of
the EV energy cost stream (annual energy cost, reduced to 10% when
`hasSolar`, discounted per year over `loanTermYears`); the web copy does not
return this quantity. -/
theorem c1_server_fuel_spend_savings (inp : CalcInput)
    (h : inp.loanTermYears ≠ 0) :
    (Server.calculate inp).fuelSpendSavings =
      round2 ((Finset.range inp.loanTermYears).sum (fun i =>
          Server.monthlyFuelSpendOf inp.fuelType inp.distance * 12 *
            (1 + Server.FUEL_INFLATION) ^ i /
            (1 + Server.DISCOUNT_RATE) ^ (i + 1)) -
        (Finset.range inp.loanTermYears).sum (fun i =>
          (if inp.hasSolar then
            inp.distance * 12 * Server.EV_CONSUMPTION * Server.ESKOM_RATE * 0.1
          else inp.distance * 12 * Server.EV_CONSUMPTION * Server.ESKOM_RATE) /
            (1 + Server.DISCOUNT_RATE) ^ (i + 1))) := by
  have heff : effectiveLoanTermYears inp.loanTermYears = inp.loanTermYears := by
    rw [effectiveLoanTermYears, if_neg h]
  have hA : Server.pvFuelCostOf inp.fuelType inp.distance inp.loanTermYears =
      (Finset.range inp.loanTermYears).sum (fun i =>
        Server.monthlyFuelSpendOf inp.fuelType inp.distance * 12 *
          (1 + Server.FUEL_INFLATION) ^ i /
          (1 + Server.DISCOUNT_RATE) ^ (i + 1)) := rfl
  have hB : Server.pvEvCostOf inp.hasSolar inp.distance inp.loanTermYears =
      (Finset.range inp.loanTermYears).sum (fun i =>
        (if inp.hasSolar then
          inp.distance * 12 * Server.EV_CONSUMPTION * Server.ESKOM_RATE * 0.1
        else inp.distance * 12 * Server.EV_CONSUMPTION * Server.ESKOM_RATE) /
          (1 + Server.DISCOUNT_RATE) ^ (i + 1)) := by
    cases hs : inp.hasSolar <;>
      simp [Server.pvEvCostOf, Server.annualEvCostOf, presentValue, hs]
  show round2 (Server.pvFuelCostOf inp.fuelType inp.distance
      (effectiveLoanTermYears inp.loanTermYears) -
    Server.pvEvCostOf inp.hasSolar inp.distance
      (effectiveLoanTermYears inp.loanTermYears)) = _
  rw [heff, hA, hB]

/-- Witness for the amended C1 at the documented example scenario. -/
theorem c1_server_fuel_spend_savings_witness :
    typicalInput.loanTermYears ≠ 0 ∧
    (Server.calculate typicalInput).fuelSpendSavings =
      round2 ((Finset.range typicalInput.loanTermYears).sum (fun i =>
          Server.monthlyFuelSpendOf typicalInput.fuelType typicalInput.distance *
            12 * (1 + Server.FUEL_INFLATION) ^ i /
            (1 + Server.DISCOUNT_RATE) ^ (i + 1)) -
        (Finset.range typicalInput.loanTermYears).sum (fun i =>
          (if typicalInput.hasSolar then
            typicalInput.distance * 12 * Server.EV_CONSUMPTION *
              Server.ESKOM_RATE * 0.1
          else typicalInput.distance * 12 * Server.EV_CONSUMPTION *
              Server.ESKOM_RATE) /
            (1 + Server.DISCOUNT_RATE) ^ (i + 1))) :=
  ⟨by decide, c1_server_fuel_spend_savings typicalInput (by decide)⟩

/-- Each monthly term of the web cumulative cost is at least the base cost, so
the cumulative cost is at least `months` times the base cost. -/
theorem calculateCumulativeCost_lower (M infl : ℝ) (hM : 0 ≤ M)
    (hinfl : 0 ≤ infl) (n : ℕ) :
    (n : ℝ) * M ≤ Web.calculateCumulativeCost M infl n := by
  unfold Web.calculateCumulativeCost
  calc (n : ℝ) * M = (Finset.range n).sum (fun _ => M) := by
        rw [Finset.sum_const, Finset.card_range, nsmul_eq_mul]
    _ ≤ (Finset.range n).sum
          (fun month => M * (1 + infl) ^ ((month : ℝ) / 12)) := by
        apply Finset.sum_le_sum
        intro m _
        have h1 : (1 : ℝ) ≤ (1 + infl) ^ ((m : ℝ) / 12) := by
          calc (1 : ℝ) = (1 + infl) ^ (0 : ℝ) := (Real.rpow_zero _).symm
            _ ≤ (1 + infl) ^ ((m : ℝ) / 12) :=
              Real.rpow_le_rpow_of_exponent_le (by linarith) (by positivity)
        exact le_mul_of_one_le_right hM h1

/-- Over at most twelve months the inflation exponent stays at most one, so
the cumulative cost is at most `months` times the one-year-inflated base
cost. -/
theorem calculateCumulativeCost_upper_year (M infl : ℝ) (hM : 0 ≤ M)
    (hinfl : 0 ≤ infl) (n : ℕ) (hn : n ≤ 12) :
    Web.calculateCumulativeCost M infl n ≤ (n : ℝ) * (M * (1 + infl)) := by
  unfold Web.calculateCumulativeCost
  calc (Finset.range n).sum (fun month => M * (1 + infl) ^ ((month : ℝ) / 12))
      ≤ (Finset.range n).sum (fun _ => M * (1 + infl)) := by
        apply Finset.sum_le_sum
        intro m hm
        have hm12 : (m : ℝ) / 12 ≤ 1 := by
          rw [Finset.mem_range] at hm
          have : (m : ℝ) ≤ 11 := by
            have : m ≤ 11 := by omega
            exact_mod_cast this
          linarith
        have h1 : (1 + infl) ^ ((m : ℝ) / 12) ≤ (1 + infl) := by
          calc (1 + infl) ^ ((m : ℝ) / 12) ≤ (1 + infl) ^ (1 : ℝ) :=
              Real.rpow_le_rpow_of_exponent_le (by linarith) hm12
            _ = 1 + infl := Real.rpow_one _
        exact mul_le_mul_of_nonneg_left h1 hM
    _ = (n : ℝ) * (M * (1 + infl)) := by
        rw [Finset.sum_const, Finset.card_range, nsmul_eq_mul]

/-- Claim C1 (counterexample): the web copy's returned `fuelSpendSavings` is
not the discounted PV(ICE) minus PV(EV) difference: at 1500 km per month on
petrol 95 with solar and a 1-year term, the returned value (a nominal
undiscounted cumulative difference) exceeds 33507, while the claimed
discounted difference is below 30333. -/
theorem c1_web_counterexample :
    (Web.calculateSavings webCexInput).fuelSpendSavings ≠
      (Finset.range (effectiveLoanTermYears webCexInput.loanTermYears)).sum
        (fun i => Web.monthlyFuelSpendOf webCexInput.fuelType
            (webCexInput.distance : ℝ) * 12 * (1 + Web.FUEL_INFLATION) ^ i /
          (1 + Web.DISCOUNT_RATE) ^ (i + 1)) -
      (Finset.range (effectiveLoanTermYears webCexInput.loanTermYears)).sum
        (fun i => ((webCexInput.distance : ℝ) * 12 * Web.EV_CONSUMPTION *
            Web.ESKOM_RATE * 0.1) /
          (1 + Web.DISCOUNT_RATE) ^ (i + 1)) := by
  have hMf : Web.monthlyFuelSpendOf webCexInput.fuelType
      (webCexInput.distance : ℝ) = 2918.7 := by
    simp [webCexInput, Web.monthlyFuelSpendOf, Web.monthlyLitresOf,
      Web.consumptionRate, Web.fuelPriceOf, Web.FUEL_CONSUMPTION,
      Web.FUEL_PRICES]
    norm_num
  have hMc : Web.monthlyChargingCostOf webCexInput.hasSolar
      (webCexInput.distance : ℝ) = 114.2505 := by
    simp [webCexInput, Web.monthlyChargingCostOf, Web.EV_CONSUMPTION,
      Web.ESKOM_RATE, Web.STANDARD_ESKOM_RATE, Web.PREMIUM_ESKOM_RATE]
    norm_num
  have heff : effectiveLoanTermYears webCexInput.loanTermYears = 1 := rfl
  have hstep : (Web.calculateSavings webCexInput).fuelSpendSavings =
      round2 (Web.calculateCumulativeCost
          (Web.monthlyFuelSpendOf webCexInput.fuelType
            (webCexInput.distance : ℝ)) Web.FUEL_INFLATION 12 -
        Web.calculateCumulativeCost
          (Web.monthlyChargingCostOf webCexInput.hasSolar
            (webCexInput.distance : ℝ)) Web.ELECTRICITY_INFLATION 12) := rfl
  have hcF : (35024.4 : ℝ) ≤
      Web.calculateCumulativeCost 2918.7 Web.FUEL_INFLATION 12 := by
    have h := calculateCumulativeCost_lower 2918.7
      Web.FUEL_INFLATION (by norm_num)
      (by norm_num [Web.FUEL_INFLATION]) 12
    calc (35024.4 : ℝ) = (12 : ℕ) * 2918.7 := by norm_num
      _ ≤ _ := h
  have hcC : Web.calculateCumulativeCost 114.2505
      Web.ELECTRICITY_INFLATION 12 ≤ (1516.61 : ℝ) := by
    have h := calculateCumulativeCost_upper_year 114.2505
      Web.ELECTRICITY_INFLATION (by norm_num)
      (by norm_num [Web.ELECTRICITY_INFLATION]) 12 (by norm_num)
    calc Web.calculateCumulativeCost 114.2505 Web.ELECTRICITY_INFLATION 12
        ≤ (12 : ℕ) * (114.2505 * (1 + Web.ELECTRICITY_INFLATION)) := h
      _ ≤ (1516.61 : ℝ) := by norm_num [Web.ELECTRICITY_INFLATION]
  have hLHS : (33507 : ℝ) ≤
      (Web.calculateSavings webCexInput).fuelSpendSavings := by
    rw [hstep, hMf, hMc]
    have h3 := le_round2 (Web.calculateCumulativeCost 2918.7
        Web.FUEL_INFLATION 12 -
      Web.calculateCumulativeCost 114.2505 Web.ELECTRICITY_INFLATION 12)
    linarith
  have hRHS : (Finset.range (effectiveLoanTermYears webCexInput.loanTermYears)).sum
        (fun i => Web.monthlyFuelSpendOf webCexInput.fuelType
            (webCexInput.distance : ℝ) * 12 * (1 + Web.FUEL_INFLATION) ^ i /
          (1 + Web.DISCOUNT_RATE) ^ (i + 1)) -
      (Finset.range (effectiveLoanTermYears webCexInput.loanTermYears)).sum
        (fun i => ((webCexInput.distance : ℝ) * 12 * Web.EV_CONSUMPTION *
            Web.ESKOM_RATE * 0.1) /
          (1 + Web.DISCOUNT_RATE) ^ (i + 1)) ≤ (30333 : ℝ) := by
    rw [heff, Finset.sum_range_one, Finset.sum_range_one, hMf]
    have hd : ((webCexInput.distance : ℚ) : ℝ) = 1500 := by
      norm_num [webCexInput]
    rw [hd]
    norm_num [Web.FUEL_INFLATION, Web.DISCOUNT_RATE,
      Web.EV_CONSUMPTION, Web.ESKOM_RATE, Web.STANDARD_ESKOM_RATE,
      Web.PREMIUM_ESKOM_RATE]
  exact ne_of_gt (lt_of_le_of_lt hRHS (lt_of_lt_of_le (by norm_num) hLHS))

/-- Claim C8: once the monthly fuel spend reaches the 3000-unit cap, the
qualifying litres equal `3000 / fuelPrice`, and the returned reward present
value no longer depends on the distance, in both copies. -/
theorem c8_reward_cap (inp : CalcInput) (d₁ d₂ : ℚ)
    (h₁ : 3000 ≤ Server.monthlyFuelSpendOf inp.fuelType d₁)
    (h₂ : 3000 ≤ Server.monthlyFuelSpendOf inp.fuelType d₂)
    (h₃ : (3000 : ℝ) ≤ Web.monthlyFuelSpendOf inp.fuelType (d₁ : ℝ))
    (h₄ : (3000 : ℝ) ≤ Web.monthlyFuelSpendOf inp.fuelType (d₂ : ℝ)) :
    Server.qualifyingLitresOf inp.fuelType d₁ =
      3000 / Server.fuelPriceOf inp.fuelType ∧
    (Server.calculate {inp with distance := d₁}).presentValueEbucks =
      (Server.calculate {inp with distance := d₂}).presentValueEbucks ∧
    Web.qualifyingLitresOf inp.fuelType (d₁ : ℝ) =
      3000 / Web.fuelPriceOf inp.fuelType ∧
    (Web.calculateSavings {inp with distance := d₁}).presentValueEbucks =
      (Web.calculateSavings {inp with distance := d₂}).presentValueEbucks := by
  have hcap : Server.MONTHLY_FUEL_SPEND_CAP = (3000 : ℚ) := by
    norm_num [Server.MONTHLY_FUEL_SPEND_CAP]
  have hcapW : Web.MONTHLY_FUEL_SPEND_CAP = (3000 : ℝ) := by
    norm_num [Web.MONTHLY_FUEL_SPEND_CAP]
  have hqS : ∀ d : ℚ, 3000 ≤ Server.monthlyFuelSpendOf inp.fuelType d →
      Server.qualifyingLitresOf inp.fuelType d =
        3000 / Server.fuelPriceOf inp.fuelType := by
    intro d hd
    rw [Server.qualifyingLitresOf, min_eq_right (by rw [hcap]; exact hd), hcap]
  have hqW : ∀ d : ℚ, (3000 : ℝ) ≤ Web.monthlyFuelSpendOf inp.fuelType (d : ℝ) →
      Web.qualifyingLitresOf inp.fuelType (d : ℝ) =
        3000 / Web.fuelPriceOf inp.fuelType := by
    intro d hd
    rw [Web.qualifyingLitresOf, min_eq_right (by rw [hcapW]; exact hd), hcapW]
  have hyS : Server.year1EbucksOf {inp with distance := d₁} =
      Server.year1EbucksOf {inp with distance := d₂} := by
    show Server.totalRateOf {inp with distance := d₁} *
        Server.qualifyingLitresOf inp.fuelType d₁ * 12 =
      Server.totalRateOf {inp with distance := d₂} *
        Server.qualifyingLitresOf inp.fuelType d₂ * 12
    rw [hqS d₁ h₁, hqS d₂ h₂]
    have ht : Server.totalRateOf {inp with distance := d₁} =
        Server.totalRateOf {inp with distance := d₂} := rfl
    rw [ht]
  have hyW : Web.year1EbucksOf {inp with distance := d₁} =
      Web.year1EbucksOf {inp with distance := d₂} := by
    show Web.totalRateOf {inp with distance := d₁} *
        Web.qualifyingLitresOf inp.fuelType (d₁ : ℝ) * 12 =
      Web.totalRateOf {inp with distance := d₂} *
        Web.qualifyingLitresOf inp.fuelType (d₂ : ℝ) * 12
    rw [hqW d₁ h₃, hqW d₂ h₄]
    have ht : Web.totalRateOf {inp with distance := d₁} =
        Web.totalRateOf {inp with distance := d₂} := rfl
    rw [ht]
  refine ⟨hqS d₁ h₁, ?_, hqW d₁ h₃, ?_⟩
  · show round2 (presentValueOfGrowingAnnuity
        (Server.year1EbucksOf {inp with distance := d₁})
        Server.FUEL_INFLATION Server.DISCOUNT_RATE 5) =
      round2 (presentValueOfGrowingAnnuity
        (Server.year1EbucksOf {inp with distance := d₂})
        Server.FUEL_INFLATION Server.DISCOUNT_RATE 5)
    rw [hyS]
  · show round2 (presentValueOfGrowingAnnuity
        (Web.year1EbucksOf {inp with distance := d₁})
        Web.FUEL_INFLATION Web.DISCOUNT_RATE 5) =
      round2 (presentValueOfGrowingAnnuity
        (Web.year1EbucksOf {inp with distance := d₂})
        Web.FUEL_INFLATION Web.DISCOUNT_RATE 5)
    rw [hyW]

/-- Witness for C8: at 2000 and 3000 km per month on petrol 95 the monthly
spend exceeds the cap in both copies. -/
theorem c8_reward_cap_witness :
    (3000 ≤ Server.monthlyFuelSpendOf typicalInput.fuelType 2000) ∧
    (3000 ≤ Server.monthlyFuelSpendOf typicalInput.fuelType 3000) ∧
    ((3000 : ℝ) ≤ Web.monthlyFuelSpendOf typicalInput.fuelType ((2000 : ℚ) : ℝ)) ∧
    ((3000 : ℝ) ≤ Web.monthlyFuelSpendOf typicalInput.fuelType ((3000 : ℚ) : ℝ)) ∧
    (Server.qualifyingLitresOf typicalInput.fuelType 2000 =
      3000 / Server.fuelPriceOf typicalInput.fuelType ∧
    (Server.calculate {typicalInput with distance := 2000}).presentValueEbucks =
      (Server.calculate {typicalInput with distance := 3000}).presentValueEbucks ∧
    Web.qualifyingLitresOf typicalInput.fuelType ((2000 : ℚ) : ℝ) =
      3000 / Web.fuelPriceOf typicalInput.fuelType ∧
    (Web.calculateSavings {typicalInput with distance := 2000}).presentValueEbucks =
      (Web.calculateSavings {typicalInput with distance := 3000}).presentValueEbucks) := by
  have h₁ : (3000 : ℚ) ≤ Server.monthlyFuelSpendOf typicalInput.fuelType 2000 := by
    simp [typicalInput, Server.monthlyFuelSpendOf, Server.monthlyLitresOf,
      Server.consumptionRate, Server.fuelPriceOf, Server.FUEL_CONSUMPTION,
      Server.FUEL_PRICES]
    norm_num
  have h₂ : (3000 : ℚ) ≤ Server.monthlyFuelSpendOf typicalInput.fuelType 3000 := by
    simp [typicalInput, Server.monthlyFuelSpendOf, Server.monthlyLitresOf,
      Server.consumptionRate, Server.fuelPriceOf, Server.FUEL_CONSUMPTION,
      Server.FUEL_PRICES]
    norm_num
  have h₃ : (3000 : ℝ) ≤ Web.monthlyFuelSpendOf typicalInput.fuelType
      ((2000 : ℚ) : ℝ) := by
    simp [typicalInput, Web.monthlyFuelSpendOf, Web.monthlyLitresOf,
      Web.consumptionRate, Web.fuelPriceOf, Web.FUEL_CONSUMPTION,
      Web.FUEL_PRICES]
    norm_num
  have h₄ : (3000 : ℝ) ≤ Web.monthlyFuelSpendOf typicalInput.fuelType
      ((3000 : ℚ) : ℝ) := by
    simp [typicalInput, Web.monthlyFuelSpendOf, Web.monthlyLitresOf,
      Web.consumptionRate, Web.fuelPriceOf, Web.FUEL_CONSUMPTION,
      Web.FUEL_PRICES]
    norm_num
  exact ⟨h₁, h₂, h₃, h₄, c8_reward_cap typicalInput 2000 3000 h₁ h₂ h₃ h₄⟩

/-- Claim C9 (counterexample): at a positive distance of 0.01 km per month,
the server's returned rounded `co2.evMonthly` is 0 with solar — not strictly
positive — and coincides with the non-solar value (also rounded to 0), so
neither strict inequality of the claim holds of the returned fields. -/
theorem c9_rounded_ev_emission_counterexample :
    0 < smallDistanceInput.distance ∧ smallDistanceInput.hasSolar = true ∧
    (Server.calculate smallDistanceInput).co2Emissions.ev = 0 ∧
    (Server.calculate
      {smallDistanceInput with hasSolar := false}).co2Emissions.ev = 0 := by
  refine ⟨by norm_num [smallDistanceInput], rfl, ?_, ?_⟩
  · show round2 (Server.evMonthlyEmissionsOf smallDistanceInput.hasSolar
      smallDistanceInput.distance) = 0
    simp [smallDistanceInput, Server.evMonthlyEmissionsOf,
      Server.EV_CONSUMPTION, Server.CO2_SOLAR, round2, round_eq]
    norm_num [Int.floor_eq_zero_iff]
  · show round2 (Server.evMonthlyEmissionsOf false
      smallDistanceInput.distance) = 0
    simp [smallDistanceInput, Server.evMonthlyEmissionsOf,
      Server.EV_CONSUMPTION, Server.CO2_GRID, round2, round_eq]
    norm_num [Int.floor_eq_zero_iff]

/-- Claim C9 (amended): for every positive distance the pre-rounding EV
monthly emissions with solar are strictly below the grid value and strictly
positive, in both copies; the returned field is the 2-decimal rounding of
that quantity, which can collapse to 0 (or coincide across the flag) for
small distances. -/
theorem c9_solar_emissions_strict (inp : CalcInput) (h : 0 < inp.distance) :
    Server.evMonthlyEmissionsOf true inp.distance <
      Server.evMonthlyEmissionsOf false inp.distance ∧
    0 < Server.evMonthlyEmissionsOf true inp.distance ∧
    (Server.calculate inp).co2Emissions.ev =
      round2 (Server.evMonthlyEmissionsOf inp.hasSolar inp.distance) ∧
    Web.evMonthlyEmissionsOf true (inp.distance : ℝ) <
      Web.evMonthlyEmissionsOf false (inp.distance : ℝ) ∧
    0 < Web.evMonthlyEmissionsOf true (inp.distance : ℝ) ∧
    (Web.calculateSavings inp).co2Emissions.ev =
      round2 (Web.evMonthlyEmissionsOf inp.hasSolar (inp.distance : ℝ)) := by
  have hR : (0 : ℝ) < (inp.distance : ℝ) := by exact_mod_cast h
  have e1 : Server.evMonthlyEmissionsOf true inp.distance =
      inp.distance * Server.EV_CONSUMPTION * Server.CO2_SOLAR := rfl
  have e2 : Server.evMonthlyEmissionsOf false inp.distance =
      inp.distance * Server.EV_CONSUMPTION * Server.CO2_GRID := rfl
  have e3 : Web.evMonthlyEmissionsOf true (inp.distance : ℝ) =
      (inp.distance : ℝ) * Web.EV_CONSUMPTION * Web.CO2_SOLAR := rfl
  have e4 : Web.evMonthlyEmissionsOf false (inp.distance : ℝ) =
      (inp.distance : ℝ) * Web.EV_CONSUMPTION * Web.CO2_GRID := rfl
  refine ⟨?_, ?_, rfl, ?_, ?_, rfl⟩
  · rw [e1, e2]
    simp only [Server.EV_CONSUMPTION, Server.CO2_SOLAR, Server.CO2_GRID]
    nlinarith [h]
  · rw [e1]
    simp only [Server.EV_CONSUMPTION, Server.CO2_SOLAR]
    nlinarith [h]
  · rw [e3, e4]
    simp only [Web.EV_CONSUMPTION, Web.CO2_SOLAR, Web.CO2_GRID]
    nlinarith [hR]
  · rw [e3]
    simp only [Web.EV_CONSUMPTION, Web.CO2_SOLAR]
    nlinarith [hR]

/-- Witness for the amended C9 at 1500 km per month. -/
theorem c9_solar_emissions_strict_witness :
    0 < typicalInput.distance ∧
    (Server.evMonthlyEmissionsOf true typicalInput.distance <
      Server.evMonthlyEmissionsOf false typicalInput.distance ∧
    0 < Server.evMonthlyEmissionsOf true typicalInput.distance ∧
    (Server.calculate typicalInput).co2Emissions.ev =
      round2 (Server.evMonthlyEmissionsOf typicalInput.hasSolar
        typicalInput.distance) ∧
    Web.evMonthlyEmissionsOf true (typicalInput.distance : ℝ) <
      Web.evMonthlyEmissionsOf false (typicalInput.distance : ℝ) ∧
    0 < Web.evMonthlyEmissionsOf true (typicalInput.distance : ℝ) ∧
    (Web.calculateSavings typicalInput).co2Emissions.ev =
      round2 (Web.evMonthlyEmissionsOf typicalInput.hasSolar
        (typicalInput.distance : ℝ))) :=
  ⟨by norm_num [typicalInput],
    c9_solar_emissions_strict typicalInput (by norm_num [typicalInput])⟩

end EVCalc
